import Mathlib

/-!
# Verification of the ModbusRTU silo-monitoring service

A shallow embedding, in Lean 4, of the core data transformations of the
silo-monitoring service (`App.py`, `database_manager.py`, `telegram_alerts.py`):

* the per-device State Store update (`SiloDataManager.update_slave`) with its
  range validation, percentage derivation and database enqueue;
* the derived success rate (`SiloStatus.success_rate`);
* the batch writer (`DatabaseManager._write_batch`) and the record filter it
  applies before issuing an `INSERT`;
* the alert engine (`TelegramAlertManager.check_and_send_alerts` together with
  `_send_offline_alert`), i.e. the offline debounce and cooldown state machine;
* the transport-error keyword classification of `ModbusPoller.read_slave`;
* the crash handling of `ModbusPoller.polling_loop`.

Modelling conventions:

* Wall-clock instants are epoch seconds (`Nat`); the `strftime`/`fromisoformat`
  round-trip between the State Store and the alert engine is modelled as the
  identity on those instants (parsing always succeeds on a stored timestamp).
  The stored `last_ok` string is timezone-naive while the alert engine's
  `current_time` is timezone-aware, so in the source the threshold
  subtraction of the offline classification raises `TypeError` and its bare
  `except` fires; `offline_too_long` models the resulting control flow.
* Register values are `Nat` (pymodbus holding registers are unsigned 16-bit
  words); configured bounds are `Int`, as arbitrary Python ints.
* CPython `float` arithmetic (IEEE-754 binary64, round to nearest, ties to
  even) is modelled exactly: every individual float operation produces the
  correctly rounded binary64 value of the exact rational operation.  Exact
  rationals are carried as unreduced fractions (`Frac` below, an integer
  numerator over a positive integer denominator) so that every operation is
  kernel-computable, and `Frac.toRat` interprets them in `ℚ` for the
  specification-level statements.  The magnitudes occurring in this program
  are all normal binary64 values, far from overflow, so neither subnormals
  nor infinities arise.
* Fallible paths return `Option`; `none` marks a path on which the Python code
  would raise an exception out of the modelled function.
-/

/-! ## Exact rationals as unreduced fractions, and IEEE-754 binary64 rounding -/

/-- An unreduced fraction `n / d`.  All constructors used in this development
produce `d > 0`; no normalisation (hence no `Nat.gcd`) is ever applied, which
keeps every operation reducible by the kernel. -/
structure Frac where
  n : Int
  d : Int
deriving DecidableEq, Repr

/-- Interpretation of a fraction as a rational number. -/
def Frac.toRat (x : Frac) : ℚ := ((x.n : ℚ)) / ((x.d : ℚ))

/-- The fraction `a / b`, with the sign moved to the numerator. -/
def mkF (a b : Int) : Frac := if b < 0 then ⟨-a, -b⟩ else ⟨a, b⟩

/-- Exact quotient of two integers as a fraction. -/
def divF (a b : Int) : Frac := mkF a b

/-- Exact product of a fraction and an integer. -/
def mulF (x : Frac) (k : Int) : Frac := ⟨x.n * k, x.d⟩

/-- Comparison of fractions with positive denominators. -/
def leF (x y : Frac) : Bool := decide (x.n * y.d ≤ y.n * x.d)

/-- `|x|` for a fraction. -/
def absF (x : Frac) : Frac := ⟨((x.n.natAbs : Int)), ((x.d.natAbs : Int))⟩

/-- Number of binary digits of `n`, computed with explicit fuel so that the
kernel can evaluate it (`fuel ≥ n` suffices since `n` halves each step). -/
def bitlenAux : Nat → Nat → Nat
  | 0, _ => 0
  | fuel + 1, n => if n = 0 then 0 else bitlenAux fuel (n / 2) + 1

/-- Number of binary digits of `n`:
`bitlen 0 = 0` and `2 ^ (bitlen n - 1) ≤ n < 2 ^ bitlen n` for `n > 0`. -/
def bitlen (n : Nat) : Nat := bitlenAux n n

/-- The fraction `2 ^ e` for an integer exponent. -/
def pow2F (e : Int) : Frac :=
  if 0 ≤ e then ⟨(((2 ^ e.toNat : Nat) : Int)), 1⟩ else ⟨1, (((2 ^ (-e).toNat : Nat) : Int))⟩

/-- The fraction `x / 2 ^ e`. -/
def divPow2F (x : Frac) (e : Int) : Frac :=
  if 0 ≤ e then ⟨x.n, x.d * (((2 ^ e.toNat : Nat) : Int))⟩
  else ⟨x.n * (((2 ^ (-e).toNat : Nat) : Int)), x.d⟩

/-- The fraction `m * 2 ^ e` for integers `m`, `e`. -/
def ofIntPow2F (m e : Int) : Frac :=
  if 0 ≤ e then ⟨m * (((2 ^ e.toNat : Nat) : Int)), 1⟩ else ⟨m, (((2 ^ (-e).toNat : Nat) : Int))⟩

/-- Round a fraction (positive denominator) to the nearest integer, ties to
even: the rounding step of IEEE-754 round-to-nearest. -/
def rneF (x : Frac) : Int :=
  let f := x.n.fdiv x.d
  let r := x.n - f * x.d
  if 2 * r < x.d then f
  else if x.d < 2 * r then f + 1
  else if f % 2 = 0 then f else f + 1

/-- `⌊log₂ |x|⌋` for `x ≠ 0`: the bit-length estimate is off by at most one
and is corrected by a single comparison. -/
def floor_log2F (x : Frac) : Int :=
  let k : Int := ((bitlen x.n.natAbs : Int)) - ((bitlen x.d.natAbs : Int))
  if leF (pow2F k) (absF x) then k else k - 1

/-- Round an exact rational to the nearest IEEE-754 binary64 value (53
significant bits, round to nearest, ties to even; normal range only).  This is
the rounding CPython applies after every float operation. -/
def flF (x : Frac) : Frac :=
  if x.n = 0 then ⟨0, 1⟩
  else
    let e : Int := floor_log2F x - 52
    ofIntPow2F (rneF (divPow2F x e)) e

/-- Truncation toward zero of a fraction, i.e. Python's `int(x)` on a float. -/
def truncF (x : Frac) : Int := x.n.tdiv x.d

/-! ## State Store data model (src/App.py, `SiloStatus` and `SiloDataManager`) -/

/-- One device record of the State Store (dataclass `SiloStatus`,
src/App.py lines 92-101).  `last_ok` is the stored timestamp in epoch
seconds. -/
structure SiloStatus where
  value : Option Nat := none
  percent : Option Int := none
  online : Bool := false
  last_ok : Option Nat := none
  last_error : Option String := none
  error_count : Nat := 0
  total_reads : Nat := 0
deriving DecidableEq, Repr

/-- `SiloStatus.success_rate` (src/App.py lines 103-108):
`((total_reads - error_count) / total_reads) * 100` in float arithmetic, and
`0.0` when `total_reads = 0`.  The int subtraction and the int-to-float
conversions are exact at these magnitudes; the division and the
multiplication each round to the nearest binary64 value. -/
def SiloStatus.success_rate (s : SiloStatus) : ℚ :=
  if s.total_reads = 0 then 0
  else
    (flF (mulF (flF (divF (((s.total_reads : Int)) - ((s.error_count : Int)))
      ((s.total_reads : Int)))) 100)).toRat

/-- `int((value / max_val) * 100)` (src/App.py line 155) in CPython semantics:
binary64 division, binary64 multiplication by 100, truncation toward zero. -/
def py_percent (v : Nat) (m : Int) : Int :=
  truncF (flF (mulF (flF (divF ((v : Int)) m)) 100))

/-- Configured validation range (`config['validation']`, read in
src/App.py lines 143-145). -/
structure ValidationConfig where
  min_value : Int
  max_value : Int
deriving DecidableEq, Repr

/-- Python truthiness of the optional `error` string (`if error:` at
src/App.py line 147): `None` and the empty string are falsy. -/
def err_truthy : Option String → Bool
  | none => false
  | some e => ! e.data.isEmpty

/-- The out-of-range error text built at src/App.py line 170. -/
def out_of_range_msg (cfg : ValidationConfig) (v : Nat) : String :=
  ("Valore fuori range: ") ++ toString v ++ (" (range: ") ++ toString cfg.min_value
    ++ ("-") ++ toString cfg.max_value ++ (")")

/-- One queued record of the persistence queue (dataclass `DatabaseRecord`,
src/database_manager.py lines 15-23). -/
structure DatabaseRecord where
  slave_id : Nat
  timestamp : Nat
  value : Option Nat
  percent : Option Int
  online : Bool
  error_message : Option String
deriving DecidableEq, Repr

/-- `DatabaseManager.queue_data` (src/database_manager.py lines 236-251): the
record built from `asdict(silo)` and the current wall clock.  The bounded
queue's overflow drop is not modelled (no claim concerns a full queue). -/
def queue_data (slave_id now : Nat) (s : SiloStatus) : DatabaseRecord :=
  { slave_id := slave_id, timestamp := now, value := s.value, percent := s.percent,
    online := s.online, error_message := s.last_error }

/-- The records appended to the persistence queue by the final step of
`update_slave` (src/App.py lines 174-176): one record per update whenever the
database manager is enabled. -/
def db_queue (db_enabled : Bool) (slave_id now : Nat) (s : SiloStatus) : List DatabaseRecord :=
  if db_enabled then [queue_data slave_id now s] else []

/-- `SiloDataManager.update_slave` (src/App.py lines 137-176).  Returns the
updated device record together with the list of records enqueued for
persistence.  Returns `none` exactly on the path where the source would raise
a `TypeError` (`error` falsy and `value` absent, so that `min_val <= value`
compares an int with `None`); no caller produces that combination. -/
def update_slave (cfg : ValidationConfig) (db_enabled : Bool) (slave_id now : Nat)
    (s : SiloStatus) (value : Option Nat) (error : Option String) :
    Option (SiloStatus × List DatabaseRecord) :=
  if err_truthy error then
    let s2 : SiloStatus :=
      { s with total_reads := s.total_reads + 1, online := false,
               last_error := error, error_count := s.error_count + 1 }
    some (s2, db_queue db_enabled slave_id now s2)
  else
    match value with
    | none => none
    | some v =>
        if cfg.min_value ≤ ((v : Int)) ∧ ((v : Int)) ≤ cfg.max_value then
          let s2 : SiloStatus :=
            { s with total_reads := s.total_reads + 1, value := some v,
                     percent := some (py_percent v cfg.max_value), online := true,
                     last_ok := some now, last_error := none }
          some (s2, db_queue db_enabled slave_id now s2)
        else
          let s2 : SiloStatus :=
            { s with total_reads := s.total_reads + 1, online := false,
                     last_error := some (out_of_range_msg cfg v),
                     error_count := s.error_count + 1 }
          some (s2, db_queue db_enabled slave_id now s2)

/-- The per-device invariant of the State Store, with the percentage given by
the source's float computation: an online device holds an in-range value and
the percentage derived from it. -/
def status_invariant (cfg : ValidationConfig) (s : SiloStatus) : Prop :=
  s.online = true → ∃ v, s.value = some v ∧
    cfg.min_value ≤ ((v : Int)) ∧ ((v : Int)) ≤ cfg.max_value ∧
    s.percent = some (py_percent v cfg.max_value)

/-! ## Persistence batch writer (src/database_manager.py) -/

/-- `DatabaseManager._map_slave_to_erp_code` (src/database_manager.py lines
103-110): explicit dictionary for 1..15, zero-padded fallback otherwise. -/
def map_slave_to_erp_code (slave_id : Nat) : String :=
  match slave_id with
  | 1 => ("S01") | 2 => ("S02") | 3 => ("S03") | 4 => ("S04") | 5 => ("S05")
  | 6 => ("S06") | 7 => ("S07") | 8 => ("S08") | 9 => ("S09") | 10 => ("S10")
  | 11 => ("S11") | 12 => ("S12") | 13 => ("S13") | 14 => ("S14") | 15 => ("S15")
  | n => ("S") ++ (if n < 10 then ("0") ++ toString n else toString n)

/-- One row of the ERP table, with the three columns of the `INSERT` statement
in `_write_batch` (src/database_manager.py lines 198-216). -/
structure DbRow where
  Cd_xMGSilo : String
  Qta : Nat
  ultimo_aggiornamento : Nat
deriving DecidableEq, Repr

/-- The body of the per-record loop of `DatabaseManager._write_batch`
(src/database_manager.py lines 205-220): a record produces an `INSERT` only
when it is online with a present value; `execFails r = true` models an
exception raised by that record's `cursor.execute`, which the inner
`try/except` swallows after logging. -/
def insert_record (execFails : DatabaseRecord → Bool) (r : DatabaseRecord) : Option DbRow :=
  match r.online, r.value with
  | true, some v =>
      if execFails r then none
      else some { Cd_xMGSilo := map_slave_to_erp_code r.slave_id, Qta := v,
                  ultimo_aggiornamento := r.timestamp }
  | _, _ => none

/-- `DatabaseManager._write_batch` (src/database_manager.py lines 186-234),
as the list of rows committed for one flush.  `connFails` models an exception
while acquiring the connection (line 194), `commitFails` one in
`conn.commit()` (line 222); in either case no row is committed in this flush
(on a connection failure no insert was ever issued, on a commit failure the
rollback discards the issued inserts).  Otherwise each record is attempted
individually and a failing `execute` only skips its own record. -/
def write_batch (connFails commitFails : Bool) (execFails : DatabaseRecord → Bool)
    (records : List DatabaseRecord) : List DbRow :=
  if connFails then []
  else if commitFails then []
  else records.filterMap (insert_record execFails)

/-- One flush iteration of `DatabaseManager._batch_writer`
(src/database_manager.py lines 157-184) around `_write_batch`: the rows
committed by the flush, together with the contents of `records_buffer` after
the iteration.  On a connection-acquisition failure the outer handler of
`_write_batch` itself raises `UnboundLocalError` at `if conn:` (line 230,
`conn` never bound); that exception reaches `_batch_writer`'s handler (line
182) before `records_buffer.clear()` runs, so the same batch is retained and
retried.  On a commit failure the rollback path returns normally and the
buffer is cleared, dropping the batch.  On success the accepted rows are
committed and the buffer cleared. -/
def batch_writer_flush (connFails commitFails : Bool) (execFails : DatabaseRecord → Bool)
    (records : List DatabaseRecord) : List DbRow × List DatabaseRecord :=
  if connFails then ([], records)
  else if commitFails then ([], [])
  else (records.filterMap (insert_record execFails), [])

/-! ## Alert engine (src/telegram_alerts.py) -/

/-- The mutable state of `TelegramAlertManager`: `last_alerts` (a dict from
slave id to the instant of the last sent offline alert, modelled as an
association list with unique keys) and `currently_offline` (a set, modelled
as a duplicate-free list). -/
structure AlertState where
  last_alerts : List (Nat × Nat)
  currently_offline : List Nat
deriving DecidableEq, Repr

/-- Dictionary lookup `last_alerts.get(slave)`. -/
def lookup_alert : List (Nat × Nat) → Nat → Option Nat
  | [], _ => none
  | (k, v) :: rest, slave => if k = slave then some v else lookup_alert rest slave

/-- Dictionary update `last_alerts[slave] = t`. -/
def set_alert : List (Nat × Nat) → Nat → Nat → List (Nat × Nat)
  | [], slave, t => [(slave, t)]
  | (k, v) :: rest, slave, t =>
      if k = slave then (slave, t) :: rest else (k, v) :: set_alert rest slave t

/-- Dictionary removal `del last_alerts[slave]` (guarded by a membership test
in the source, hence a no-op on an absent key). -/
def del_alert : List (Nat × Nat) → Nat → List (Nat × Nat)
  | [], _ => []
  | (k, v) :: rest, slave => if k = slave then rest else (k, v) :: del_alert rest slave

/-- The offline classification of `check_and_send_alerts`
(src/telegram_alerts.py lines 125-135).  A non-online device with a stored
`last_ok` always classifies as offline-too-long: the stored timestamp is
written timezone-naive by `strftime` (src/App.py line 157) and parsed back
naive by `fromisoformat` (line 129), while `current_time` is timezone-aware
(line 116), so the subtraction `current_time - last_ok` at line 130 raises
`TypeError` and the bare `except` at line 132 sets the flag.  The threshold
comparison is therefore dead code, and `threshold` and `now` never influence
the result; they are kept in the signature because they appear in the
source's (unreachable) comparison. -/
def offline_too_long (threshold now : Nat) (st : SiloStatus) : Bool :=
  if st.online then false
  else
    match st.last_ok with
    | some _ => true
    | none => true

/-- Accumulator of the state-scan loop of `check_and_send_alerts`
(src/telegram_alerts.py lines 120-150). -/
structure ScanAcc where
  newly_offline : List Nat
  back_online : List Nat
  st : AlertState
deriving DecidableEq, Repr

/-- One iteration of the scan loop of `check_and_send_alerts`
(src/telegram_alerts.py lines 121-150): a device that is offline too long and
not yet tracked is added to `newly_offline` and to `currently_offline`; a
tracked device that is online again is added to `back_online`, removed from
`currently_offline`, and its `last_alerts` entry is deleted. -/
def scan_step (threshold now : Nat) (acc : ScanAcc) (p : Nat × SiloStatus) : ScanAcc :=
  if offline_too_long threshold now p.2 = true ∧ p.1 ∉ acc.st.currently_offline then
    { acc with newly_offline := acc.newly_offline ++ [p.1],
               st := { acc.st with
                        currently_offline := acc.st.currently_offline ++ [p.1] } }
  else if p.2.online = true ∧ p.1 ∈ acc.st.currently_offline then
    { newly_offline := acc.newly_offline,
      back_online := acc.back_online ++ [p.1],
      st := { last_alerts := del_alert acc.st.last_alerts p.1,
              currently_offline := acc.st.currently_offline.filter (fun x => x ≠ p.1) } }
  else acc

/-- `TelegramAlertManager._send_offline_alert` (src/telegram_alerts.py lines
160-186) threaded over `(last_alerts, sent)`: inside the cooldown window the
send is skipped entirely; otherwise the message is sent, and on transport
success (`sendOk slave`) the slave is recorded in `last_alerts`. -/
def send_offline_alert (cooldown now : Nat) (sendOk : Nat → Bool)
    (acc : List (Nat × Nat) × List Nat) (slave : Nat) :
    List (Nat × Nat) × List Nat :=
  match lookup_alert acc.1 slave with
  | some t =>
      if now - t < cooldown then acc
      else if sendOk slave then (set_alert acc.1 slave now, acc.2 ++ [slave]) else acc
  | none => if sendOk slave then (set_alert acc.1 slave now, acc.2 ++ [slave]) else acc

/-- Result of one alert evaluation: the new engine state, the slaves for which
an OFFLINE message was sent, and the slaves for which a RECOVERY message was
sent. -/
structure AlertOutcome where
  st : AlertState
  offline_sent : List Nat
  online_sent : List Nat
deriving DecidableEq, Repr

/-- `TelegramAlertManager.check_and_send_alerts` (src/telegram_alerts.py lines
111-158) for an enabled engine: scan the snapshot under the lock, then send
the OFFLINE alerts (with per-slave cooldown) and the RECOVERY alerts.
`sendOk` models the transport outcome of each Telegram send. -/
def check_and_send_alerts (threshold cooldown : Nat) (sendOk : Nat → Bool) (now : Nat)
    (st0 : AlertState) (snapshot : List (Nat × SiloStatus)) : AlertOutcome :=
  let scan := snapshot.foldl (scan_step threshold now)
    { newly_offline := [], back_online := [], st := st0 }
  let offline := scan.newly_offline.foldl (send_offline_alert cooldown now sendOk)
    (scan.st.last_alerts, [])
  { st := { last_alerts := offline.1, currently_offline := scan.st.currently_offline },
    offline_sent := offline.2,
    online_sent := scan.back_online.filter sendOk }

/-! ## Device reader error classification (src/App.py, `ModbusPoller.read_slave`) -/

/-- Whether `needle` occurs at the head of `hay`. -/
def starts_with : List Char → List Char → Bool
  | [], _ => true
  | _ :: _, [] => false
  | a :: as, b :: bs => a == b && starts_with as bs

/-- Whether `needle` occurs contiguously anywhere in `hay`. -/
def has_sub_chars (needle : List Char) : List Char → Bool
  | [] => starts_with needle []
  | c :: rest => starts_with needle (c :: rest) || has_sub_chars needle rest

/-- Python's `kw in msg` substring test. -/
def contains_substring (msg kw : String) : Bool := has_sub_chars kw.data msg.data

/-- The keyword list of src/App.py line 341. -/
def transport_keywords : List String := ["input/output", "lock", "timeout", "serial"]

/-- The disconnect classification of the exception handler in
`ModbusPoller.read_slave` (src/App.py lines 336-343).  `msg` stands for the
already lowercased exception text `str(e).lower()`. -/
def marks_disconnected (msg : String) : Bool :=
  transport_keywords.any (fun kw => contains_substring msg kw)

/-- Modelled from the spec's words (refinement comparison only): the spec
lists the classification keywords as `io`, `lock`, `timeout`, `serial`. -/
def spec_marks_disconnected (msg : String) : Bool :=
  (["io", "lock", "timeout", "serial"] : List String).any
    (fun kw => contains_substring msg kw)

/-- The effect of the exception handler of `ModbusPoller.read_slave`
(src/App.py lines 336-343) on the adapter's `is_connected` flag: cleared when
a keyword matches, untouched otherwise. -/
def read_slave_exception_step (connected : Bool) (msg : String) : Bool :=
  if marks_disconnected msg then false else connected

/-! ## Polling-loop crash handling (src/App.py, `ModbusPoller.polling_loop`) -/

/-- What happens when an exception escapes the polling loop. -/
structure CrashOutcome where
  critical_alert_attempted : Bool
  disconnected : Bool
  exit_code : Option Nat
deriving DecidableEq, Repr

/-- The `except`/`finally` clauses of `ModbusPoller.polling_loop`
(src/App.py lines 410-416): the exception is logged, `send_critical_alert` is
invoked when alerts are enabled, and the `finally` clause closes the Modbus
connection.  No exit call occurs on this path; the daemon polling thread
simply returns while the web server keeps running (`sys.exit(1)` is only
reached from `main` on startup failure, src/App.py lines 538-540). -/
def polling_loop_crash (alerts_enabled : Bool) : CrashOutcome :=
  { critical_alert_attempted := alerts_enabled, disconnected := true, exit_code := none }

/-! ## Shared concrete sample values -/

/-- The default validation range of the spec (`[0, 28000]`). -/
def cfg0 : ValidationConfig := { min_value := 0, max_value := 28000 }

/-- A device record after one failed and one successful read. -/
def s3c : SiloStatus := { total_reads := 2, error_count := 1 }

/-- A device record after one failed and three successful reads. -/
def s3w : SiloStatus := { total_reads := 4, error_count := 1 }

/-! ## Helper lemmas on the float model -/

theorem flF_zero_num (d : Int) : flF ⟨0, d⟩ = ⟨0, 1⟩ := by
  unfold flF
  rw [if_pos rfl]

theorem mkF_nonneg (a b : Int) (hb : ¬ b < 0) : mkF a b = ⟨a, b⟩ := by
  unfold mkF
  rw [if_neg hb]

theorem flF_diag (b : Int) (hb : 0 < b) :
    flF ⟨b, b⟩ = ⟨4503599627370496, 4503599627370496⟩ := by
  have hb' : b ≠ 0 := ne_of_gt hb
  have habs : ((b.natAbs : Int)) = b := Int.natAbs_of_nonneg hb.le
  have hlog : floor_log2F ⟨b, b⟩ = 0 := by
    unfold floor_log2F
    simp only [sub_self]
    rw [if_pos]
    unfold leF pow2F absF
    simp [habs]
  unfold flF
  rw [if_neg hb']
  simp only [hlog]
  have h1 : divPow2F ⟨b, b⟩ ((0 : Int) - 52) = ⟨b * 4503599627370496, b⟩ := by
    unfold divPow2F
    rw [if_neg (by decide)]
    rw [show (((2 ^ (-((0 : Int) - 52)).toNat : Nat) : Int)) = 4503599627370496 from by decide]
  have h2 : rneF ⟨b * 4503599627370496, b⟩ = 4503599627370496 := by
    unfold rneF
    have hf : (b * 4503599627370496).fdiv b = 4503599627370496 :=
      Int.mul_fdiv_cancel_left _ hb'
    simp only [hf]
    have hr : b * 4503599627370496 - 4503599627370496 * b = 0 := by ring
    simp only [hr]
    rw [if_pos (by simpa using hb)]
  rw [h1, h2]
  decide

theorem flF_div_self (a : Int) (ha : a ≠ 0) :
    flF (divF a a) = ⟨4503599627370496, 4503599627370496⟩ := by
  unfold divF mkF
  by_cases hneg : a < 0
  · rw [if_pos hneg]
    exact flF_diag (-a) (by omega)
  · rw [if_neg hneg]
    exact flF_diag a (by omega)

theorem py_percent_self (v : Nat) (m : Int) (hv : ((v : Int)) = m) (hm : m ≠ 0) :
    py_percent v m = 100 := by
  unfold py_percent
  rw [hv, flF_div_self m hm]
  decide

theorem py_percent_zero (m : Int) : py_percent 0 m = 0 := by
  unfold py_percent divF mkF
  by_cases hneg : m < 0
  · rw [if_pos hneg]
    have : flF ⟨-((0 : Nat) : Int), -m⟩ = ⟨0, 1⟩ := by
      norm_num
      exact flF_zero_num _
    rw [this]
    decide
  · rw [if_neg hneg]
    have : flF ⟨(((0 : Nat)) : Int), m⟩ = ⟨0, 1⟩ := by
      norm_num
      exact flF_zero_num _
    rw [this]
    decide

/-! ## Claim C3 — success rate -/

/-- Claim C3 (counterexample): for a device with 2 reads and 1 error the code
computes a success rate of 50, not the ratio 1/2 stated by the claim — the
source multiplies the ratio by 100 (src/App.py line 108). -/
theorem C3_counterexample :
    s3c.success_rate ≠
      ((((s3c.total_reads : ℚ))) - (((s3c.error_count : ℚ)))) / (((s3c.total_reads : ℚ))) := by
  have h : s3c.success_rate = (Frac.mk 7036874417766400 140737488355328).toRat := by
    unfold SiloStatus.success_rate
    rw [if_neg (by decide)]
    rw [show flF (mulF (flF (divF (((s3c.total_reads : Int)) - ((s3c.error_count : Int)))
      ((s3c.total_reads : Int)))) 100) = (⟨7036874417766400, 140737488355328⟩ : Frac)
      from by decide]
  have h50 : (Frac.mk 7036874417766400 140737488355328).toRat = 50 := by
    unfold Frac.toRat
    norm_num
  rw [h, h50]
  simp only [s3c]
  norm_num

/-- Claim C3 (amended): success_rate is 0 when total_reads = 0, and otherwise
the binary64 evaluation of ((total_reads − error_count) / total_reads) · 100 —
one hundred times the ratio stated by the claim, up to float rounding.  In
particular it is exactly 0 when every read failed and exactly 100 when none
did. -/
theorem C3_success_rate_amended (s : SiloStatus) :
    (s.total_reads = 0 → s.success_rate = 0) ∧
    (0 < s.total_reads →
      s.success_rate = (flF (mulF (flF (divF (((s.total_reads : Int)) - ((s.error_count : Int)))
        ((s.total_reads : Int)))) 100)).toRat) ∧
    (0 < s.total_reads → s.error_count = s.total_reads → s.success_rate = 0) ∧
    (0 < s.total_reads → s.error_count = 0 → s.success_rate = 100) := by
  refine ⟨fun h => ?_, fun h => ?_, fun h he => ?_, fun h he => ?_⟩
  · unfold SiloStatus.success_rate
    rw [if_pos h]
  · unfold SiloStatus.success_rate
    rw [if_neg (Nat.pos_iff_ne_zero.mp h)]
  · unfold SiloStatus.success_rate
    rw [if_neg (Nat.pos_iff_ne_zero.mp h)]
    rw [he, sub_self]
    rw [show divF 0 ((s.total_reads : Int)) = ⟨0, ((s.total_reads : Int))⟩ from
      mkF_nonneg _ _ (by omega)]
    rw [flF_zero_num]
    rw [show mulF (⟨0, 1⟩ : Frac) 100 = ⟨0, 1⟩ from by decide]
    rw [flF_zero_num]
    unfold Frac.toRat
    norm_num
  · unfold SiloStatus.success_rate
    rw [if_neg (Nat.pos_iff_ne_zero.mp h)]
    rw [he]
    push_cast
    rw [sub_zero]
    rw [flF_div_self ((s.total_reads : Int)) (by exact_mod_cast Nat.pos_iff_ne_zero.mp h)]
    rw [show flF (mulF (⟨4503599627370496, 4503599627370496⟩ : Frac) 100) =
      (⟨7036874417766400, 70368744177664⟩ : Frac) from by decide]
    unfold Frac.toRat
    norm_num

/-- Claim C3 witness: a concrete device with 4 reads and 1 error satisfies the
positivity hypothesis, and its success rate is the float expression (75). -/
theorem C3_success_rate_amended_witness :
    0 < s3w.total_reads ∧
    s3w.success_rate = (flF (mulF (flF (divF (((s3w.total_reads : Int)) - ((s3w.error_count : Int)))
      ((s3w.total_reads : Int)))) 100)).toRat :=
  ⟨by decide, (C3_success_rate_amended s3w).2.1 (by decide)⟩

/-! ## Claim C8 — polling-loop crash -/

/-- Claim C8 (counterexample): on a polling-loop crash with alerts enabled the
critical alert is attempted but the process does not exit with code 1 — the
crash path carries no exit code at all (src/App.py lines 410-416 contain no
`sys.exit`). -/
theorem C8_counterexample :
    (polling_loop_crash true).critical_alert_attempted = true ∧
    ¬ (polling_loop_crash true).exit_code = some 1 := by decide

/-- Claim C8 (amended): an unhandled exception in the polling loop is caught
at the top of the loop; a critical alert is attempted exactly when alerts are
enabled; the Modbus connection is closed; and the process does not exit — the
polling thread ends while the web server keeps running. -/
theorem C8_crash_behavior (en : Bool) :
    (polling_loop_crash en).critical_alert_attempted = en ∧
    (polling_loop_crash en).disconnected = true ∧
    (polling_loop_crash en).exit_code = none :=
  ⟨rfl, rfl, rfl⟩

/-! ## Claim C6 — transport keyword classification -/

/-- Claim C6 (counterexample): the spec's keyword list contains `io`, but the
source's list (src/App.py line 341) has `input/output` instead; an exception
text containing `io` alone does not mark the adapter disconnected. -/
theorem C6_counterexample :
    spec_marks_disconnected ("io error") = true ∧
    marks_disconnected ("io error") = false ∧
    read_slave_exception_step true ("io error") = true := by decide

/-- Claim C6 (amended): for every transport exception whose lowercased text
contains one of the source's keywords `input/output`, `lock`, `timeout`,
`serial`, the reader clears the adapter's `is_connected` flag before
retrying. -/
theorem C6_keyword_disconnect (connected : Bool) (msg : String)
    (h : ∃ kw ∈ transport_keywords, contains_substring msg kw = true) :
    read_slave_exception_step connected msg = false := by
  have hm : marks_disconnected msg = true := by
    unfold marks_disconnected
    rw [List.any_eq_true]
    obtain ⟨kw, hkw, hsub⟩ := h
    exact ⟨kw, hkw, hsub⟩
  simp [read_slave_exception_step, hm]

/-- Claim C6 witness: the text `device timeout` contains the keyword
`timeout`, and the step clears the connected flag on it. -/
theorem C6_keyword_disconnect_witness :
    (∃ kw ∈ transport_keywords, contains_substring ("device timeout") kw = true) ∧
    read_slave_exception_step true ("device timeout") = false :=
  ⟨by decide, C6_keyword_disconnect true ("device timeout") (by decide)⟩

/-! ## Claim C2 — only accepted records produce rows -/

/-- An accepted sample record for the batch writer. -/
def r2acc : DatabaseRecord :=
  { slave_id := 1, timestamp := 100, value := some 14000, percent := some 50,
    online := true, error_message := none }

/-- Claim C2: in a flush without injected failures, an INSERT is issued for a
queued record iff its online flag is set and its value is present; every
written row is `(external_code, value, timestamp)`; a record whose update
recorded an error or an out-of-range outcome carries `online = false` and
produces no row. -/
theorem C2_insert_iff_accepted (records : List DatabaseRecord) (r : DatabaseRecord) :
    (write_batch false false (fun _ => false) records =
      records.filterMap (insert_record (fun _ => false))) ∧
    ((insert_record (fun _ => false) r).isSome = true ↔
      (r.online = true ∧ r.value.isSome = true)) ∧
    (∀ row, insert_record (fun _ => false) r = some row →
      ∃ v, r.value = some v ∧
        row = { Cd_xMGSilo := map_slave_to_erp_code r.slave_id, Qta := v,
                ultimo_aggiornamento := r.timestamp }) ∧
    (r.online = false → insert_record (fun _ => false) r = none) := by
  refine ⟨rfl, ?_, ?_, ?_⟩
  · obtain ⟨sid, ts, val, pct, onl, errm⟩ := r
    cases onl <;> cases val <;> simp [insert_record]
  · intro row hrow
    obtain ⟨sid, ts, val, pct, onl, errm⟩ := r
    cases onl <;> cases val <;> simp_all [insert_record]
  · intro honl
    obtain ⟨sid, ts, val, pct, onl, errm⟩ := r
    subst honl
    cases val <;> simp [insert_record]

/-- Claim C2 witness: the accepted record `r2acc` yields exactly the row
`("S01", 14000, 100)`. -/
theorem C2_insert_iff_accepted_witness :
    ∃ v, r2acc.value = some v ∧
      ({ Cd_xMGSilo := ("S01"), Qta := 14000, ultimo_aggiornamento := 100 } : DbRow) =
        { Cd_xMGSilo := map_slave_to_erp_code r2acc.slave_id, Qta := v,
          ultimo_aggiornamento := r2acc.timestamp } :=
  (C2_insert_iff_accepted [] r2acc).2.2.1
    ({ Cd_xMGSilo := ("S01"), Qta := 14000, ultimo_aggiornamento := 100 }) (by decide)

/-! ## Claim C4 — batch failure scope -/

/-- Failure injection: the INSERT of slave 1's record raises. -/
def execF1 : DatabaseRecord → Bool := fun r => decide (r.slave_id = 1)

/-- Accepted record of slave 1. -/
def r4a : DatabaseRecord :=
  { slave_id := 1, timestamp := 100, value := some 5, percent := some 0,
    online := true, error_message := none }

/-- Accepted record of slave 2. -/
def r4b : DatabaseRecord :=
  { slave_id := 2, timestamp := 100, value := some 7, percent := some 0,
    online := true, error_message := none }

/-- Claim C4 (counterexample): in a batch of two accepted records where the
first INSERT raises, the flush still commits the second record — a nonempty
proper subset of the batch — because the inner per-record `try/except`
(src/database_manager.py lines 211-220) swallows the exception and the
`commit` at line 222 persists the remaining inserts. -/
theorem C4_counterexample :
    execF1 r4a = true ∧
    write_batch false false execF1 [r4a, r4b] =
      [{ Cd_xMGSilo := ("S02"), Qta := 7, ultimo_aggiornamento := 100 }] := by decide

/-- Claim C4 (amended): an exception inside an individual record's INSERT only
skips that record, and the remaining records of the batch are still committed.
An exception at commit leaves no row committed and the buffer is cleared, so
those records are dropped and the writer continues with a fresh batch.  An
exception while acquiring the connection also commits nothing in that flush,
but the handler's own `if conn:` raises with `conn` unbound, the buffer is
not cleared, and the writer retries the same batch. -/
theorem C4_batch_failure_scope (connFails commitFails : Bool)
    (execFails : DatabaseRecord → Bool) (records : List DatabaseRecord) :
    (connFails = true ∨ commitFails = true →
      (batch_writer_flush connFails commitFails execFails records).1 = []) ∧
    (batch_writer_flush false false execFails records =
      (records.filterMap (insert_record execFails), [])) ∧
    (∀ r, execFails r = true → insert_record execFails r = none) ∧
    (∀ r, execFails r = false →
      insert_record execFails r = insert_record (fun _ => false) r) ∧
    (connFails = true →
      (batch_writer_flush connFails commitFails execFails records).2 = records) ∧
    (connFails = false → commitFails = true →
      (batch_writer_flush connFails commitFails execFails records).2 = []) := by
  refine ⟨?_, rfl, ?_, ?_, ?_, ?_⟩
  · rintro (h | h) <;> subst h
    · simp [batch_writer_flush]
    · cases connFails <;> simp [batch_writer_flush]
  · intro r h
    obtain ⟨sid, ts, val, pct, onl, errm⟩ := r
    cases onl <;> cases val <;> simp_all [insert_record]
  · intro r h
    obtain ⟨sid, ts, val, pct, onl, errm⟩ := r
    cases onl <;> cases val <;> simp_all [insert_record]
  · intro h
    subst h
    simp [batch_writer_flush]
  · intro h1 h2
    subst h1
    subst h2
    simp [batch_writer_flush]

/-- Claim C4 witness: a connection-acquisition failure commits nothing and
retains the whole batch for retry, and the record whose INSERT raises is the
one skipped. -/
theorem C4_batch_failure_scope_witness :
    (batch_writer_flush true false execF1 [r4a, r4b]).1 = [] ∧
    (batch_writer_flush true false execF1 [r4a, r4b]).2 = [r4a, r4b] ∧
    insert_record execF1 r4a = none :=
  ⟨(C4_batch_failure_scope true false execF1 [r4a, r4b]).1 (Or.inl rfl),
   (C4_batch_failure_scope true false execF1 [r4a, r4b]).2.2.2.2.1 rfl,
   (C4_batch_failure_scope true false execF1 [r4a, r4b]).2.2.1 r4a (by decide)⟩

/-! ## Claim C10 — failure updates leave value, percent, last_ok untouched -/

/-- A device record holding an accepted reading. -/
def s10a : SiloStatus :=
  { value := some 5, percent := some 0, online := true, last_ok := some 40,
    last_error := none, error_count := 2, total_reads := 7 }

/-- `s10a` after a transport-error update. -/
def s10b : SiloStatus :=
  { value := some 5, percent := some 0, online := false, last_ok := some 40,
    last_error := some ("timeout lettura"), error_count := 3, total_reads := 8 }

/-- Claim C10: an update recording a failure (truthy error text, or an
out-of-range value) leaves `value`, `percent` and `last_ok` unchanged and only
modifies `online` (to false), `last_error`, `error_count` and `total_reads`;
the stale value and percent therefore remain visible next to
`online = false`. -/
theorem C10_failure_frame (cfg : ValidationConfig) (db : Bool) (slave now : Nat)
    (s : SiloStatus) :
    (∀ value error s' q, err_truthy error = true →
        update_slave cfg db slave now s value error = some (s', q) →
        s'.value = s.value ∧ s'.percent = s.percent ∧ s'.last_ok = s.last_ok ∧
        s'.online = false ∧ s'.last_error = error ∧
        s'.error_count = s.error_count + 1 ∧ s'.total_reads = s.total_reads + 1) ∧
    (∀ (v : Nat) (s' : SiloStatus) (q : List DatabaseRecord),
        ¬(cfg.min_value ≤ ((v : Int)) ∧ ((v : Int)) ≤ cfg.max_value) →
        update_slave cfg db slave now s (some v) none = some (s', q) →
        s'.value = s.value ∧ s'.percent = s.percent ∧ s'.last_ok = s.last_ok ∧
        s'.online = false ∧ s'.last_error = some (out_of_range_msg cfg v) ∧
        s'.error_count = s.error_count + 1 ∧ s'.total_reads = s.total_reads + 1) := by
  constructor
  · intro value error s' q herr hupd
    unfold update_slave at hupd
    rw [if_pos herr] at hupd
    simp only [Option.some.injEq, Prod.mk.injEq] at hupd
    obtain ⟨h1, h2⟩ := hupd
    subst h1
    exact ⟨rfl, rfl, rfl, rfl, rfl, rfl, rfl⟩
  · intro v s' q hrange hupd
    simp only [update_slave, err_truthy, Bool.false_eq_true, if_false] at hupd
    rw [if_neg hrange] at hupd
    simp only [Option.some.injEq, Prod.mk.injEq] at hupd
    obtain ⟨h1, h2⟩ := hupd
    subst h1
    exact ⟨rfl, rfl, rfl, rfl, rfl, rfl, rfl⟩

/-- Claim C10 witness: a transport-error update of `s10a` produces `s10b`,
which keeps value 5, percent 0 and last_ok 40 while going offline. -/
theorem C10_failure_frame_witness :
    err_truthy (some ("timeout lettura")) = true ∧
    (s10b.value = s10a.value ∧ s10b.percent = s10a.percent ∧ s10b.last_ok = s10a.last_ok ∧
     s10b.online = false ∧ s10b.last_error = some ("timeout lettura") ∧
     s10b.error_count = s10a.error_count + 1 ∧ s10b.total_reads = s10a.total_reads + 1) :=
  ⟨by decide,
   (C10_failure_frame cfg0 true 1 50 s10a).1 none (some ("timeout lettura")) s10b
     [queue_data 1 50 s10b] (by decide) (by decide)⟩

/-! ## Claim C5 — enqueue happens on every update -/

/-- A fresh device record. -/
def s5a : SiloStatus := {}

/-- The fresh record after a transport-error update. -/
def s5b : SiloStatus :=
  { online := false, last_error := some ("Connessione non disponibile"),
    error_count := 1, total_reads := 1 }

/-- Claim C5 (counterexample): an update carrying an error still enqueues one
persistence record — the enqueue at src/App.py lines 174-176 runs on every
update when the database is enabled, so the claim that an error update
enqueues nothing is false. -/
theorem C5_counterexample :
    update_slave cfg0 true 3 100 s5a none (some ("Connessione non disponibile")) =
      some (s5b, [queue_data 3 100 s5b]) ∧
    [queue_data 3 100 s5b] ≠ ([] : List DatabaseRecord) := by decide

/-- Claim C5 (amended): after every State Store update, whatever its outcome,
exactly one record — the freshly updated device status — is enqueued when the
database is enabled; the restriction to accepted readings is applied later by
the batch writer, which issues no INSERT for a record whose online flag is
false, so an update recording an error or an out-of-range value still
contributes no database row. -/
theorem C5_enqueue_always (cfg : ValidationConfig) (slave now : Nat) (s : SiloStatus)
    (value : Option Nat) (error : Option String) (s' : SiloStatus) (q : List DatabaseRecord)
    (h : update_slave cfg true slave now s value error = some (s', q)) :
    q = [queue_data slave now s'] ∧
    (err_truthy error = true → insert_record (fun _ => false) (queue_data slave now s') = none) ∧
    (∀ (v : Nat), value = some v → err_truthy error = false →
      ¬(cfg.min_value ≤ ((v : Int)) ∧ ((v : Int)) ≤ cfg.max_value) →
      insert_record (fun _ => false) (queue_data slave now s') = none) := by
  cases herr : err_truthy error with
  | true =>
      unfold update_slave at h
      rw [if_pos herr] at h
      simp only [Option.some.injEq, Prod.mk.injEq] at h
      obtain ⟨h1, h2⟩ := h
      subst h1
      subst h2
      refine ⟨rfl, fun _ => ?_, fun v hv hne _ => Bool.noConfusion hne⟩
      simp [insert_record, queue_data, db_queue]
  | false =>
      unfold update_slave at h
      rw [if_neg (by simp [herr])] at h
      cases value with
      | none => simp at h
      | some v =>
          simp only [] at h
          by_cases hr : cfg.min_value ≤ ((v : Int)) ∧ ((v : Int)) ≤ cfg.max_value
          · rw [if_pos hr] at h
            simp only [Option.some.injEq, Prod.mk.injEq] at h
            obtain ⟨h1, h2⟩ := h
            subst h1
            subst h2
            refine ⟨rfl, fun habs => absurd habs (by simp [herr]), ?_⟩
            intro v' hv' _ hnr
            obtain rfl : v' = v := by simpa using hv'.symm
            exact absurd hr hnr
          · rw [if_neg hr] at h
            simp only [Option.some.injEq, Prod.mk.injEq] at h
            obtain ⟨h1, h2⟩ := h
            subst h1
            subst h2
            refine ⟨rfl, fun habs => absurd habs (by simp [herr]), fun v' hv' _ hnr => ?_⟩
            simp [insert_record, queue_data, db_queue]

/-- Claim C5 witness: the error update of the counterexample enqueues a record
that the batch writer will never turn into a row. -/
theorem C5_enqueue_always_witness :
    err_truthy (some ("Connessione non disponibile")) = true ∧
    insert_record (fun _ => false) (queue_data 3 100 s5b) = none :=
  ⟨by decide,
   (C5_enqueue_always cfg0 3 100 s5a none (some ("Connessione non disponibile")) s5b
     [queue_data 3 100 s5b] (by decide)).2.1 (by decide)⟩

/-! ## Claim C7 — validation invariant and percentage -/

/-- The record produced by accepting value 8120 under the default range. -/
def s7c : SiloStatus :=
  { value := some 8120, percent := some 28, online := true, last_ok := some 50,
    last_error := none, error_count := 0, total_reads := 1 }

/-- Claim C7 (counterexample): accepting the in-range value 8120 under
`max_value = 28000` stores percent 28 — the float evaluation
`int(8120/28000*100)` — whereas `⌊8120/28000·100⌋ = 29`: the claimed floor
formula does not hold for this update. -/
theorem C7_counterexample :
    update_slave cfg0 false 1 50 ({} : SiloStatus) (some 8120) none = some (s7c, []) ∧
    s7c.percent = some 28 ∧
    (28 : Int) ≠ ⌊((8120 : ℚ)) / ((28000 : ℚ)) * 100⌋ := by
  refine ⟨by decide, by decide, ?_⟩
  have h : ((8120 : ℚ)) / ((28000 : ℚ)) * 100 = ((29 : Int) : ℚ) := by norm_num
  rw [h, Int.floor_intCast]
  decide

/-- Claim C7 (amended): every update re-establishes the invariant that an
online device's value is present and in range, with percent equal to the
float-computed `int((value / max_value) * 100)` — which can differ from
`⌊value / max_value · 100⌋` (8120 over 28000 gives 28, not 29).  An accepted
reading equal to `max_value` still yields percent 100, and with
`min_value = 0` an accepted 0 yields percent 0. -/
theorem C7_update_invariant (cfg : ValidationConfig) (db : Bool) (slave now : Nat)
    (s : SiloStatus) (hinv : status_invariant cfg s) :
    (∀ value error s' q, update_slave cfg db slave now s value error = some (s', q) →
      status_invariant cfg s') ∧
    (∀ (v : Nat) (s' : SiloStatus) (q : List DatabaseRecord),
      cfg.max_value ≠ 0 → ((v : Int)) = cfg.max_value →
      update_slave cfg db slave now s (some v) none = some (s', q) →
      s'.online = true → s'.percent = some 100) ∧
    (∀ (s' : SiloStatus) (q : List DatabaseRecord),
      cfg.min_value = 0 → 0 ≤ cfg.max_value →
      update_slave cfg db slave now s (some 0) none = some (s', q) →
      s'.online = true ∧ s'.percent = some 0) := by
  refine ⟨?_, ?_, ?_⟩
  · intro value error s' q h
    cases herr : err_truthy error with
    | true =>
        unfold update_slave at h
        rw [if_pos herr] at h
        simp only [Option.some.injEq, Prod.mk.injEq] at h
        obtain ⟨h1, h2⟩ := h
        subst h1
        intro honl
        simp at honl
    | false =>
        unfold update_slave at h
        rw [if_neg (by simp [herr])] at h
        cases value with
        | none => simp at h
        | some v =>
            simp only [] at h
            by_cases hr : cfg.min_value ≤ ((v : Int)) ∧ ((v : Int)) ≤ cfg.max_value
            · rw [if_pos hr] at h
              simp only [Option.some.injEq, Prod.mk.injEq] at h
              obtain ⟨h1, h2⟩ := h
              subst h1
              exact fun _ => ⟨v, rfl, hr.1, hr.2, rfl⟩
            · rw [if_neg hr] at h
              simp only [Option.some.injEq, Prod.mk.injEq] at h
              obtain ⟨h1, h2⟩ := h
              subst h1
              intro honl
              simp at honl
  · intro v s' q hm hv h honl
    unfold update_slave at h
    rw [if_neg (by simp [err_truthy])] at h
    simp only [] at h
    by_cases hr : cfg.min_value ≤ ((v : Int)) ∧ ((v : Int)) ≤ cfg.max_value
    · rw [if_pos hr] at h
      simp only [Option.some.injEq, Prod.mk.injEq] at h
      obtain ⟨h1, h2⟩ := h
      subst h1
      show some (py_percent v cfg.max_value) = some 100
      rw [py_percent_self v cfg.max_value hv hm]
    · rw [if_neg hr] at h
      simp only [Option.some.injEq, Prod.mk.injEq] at h
      obtain ⟨h1, h2⟩ := h
      subst h1
      simp at honl
  · intro s' q hmin hmax h
    unfold update_slave at h
    rw [if_neg (by simp [err_truthy])] at h
    simp only [] at h
    rw [if_pos (by constructor <;> omega)] at h
    simp only [Option.some.injEq, Prod.mk.injEq] at h
    obtain ⟨h1, h2⟩ := h
    subst h1
    refine ⟨rfl, ?_⟩
    show some (py_percent 0 cfg.max_value) = some 0
    rw [py_percent_zero]

/-- The record produced by accepting value 0 under the default range. -/
def s7w : SiloStatus :=
  { value := some 0, percent := some 0, online := true, last_ok := some 60,
    last_error := none, error_count := 0, total_reads := 1 }

/-- Claim C7 witness: under the default range, accepting 0 yields an online
record with percent 0. -/
theorem C7_update_invariant_witness :
    s7w.online = true ∧ s7w.percent = some 0 :=
  (C7_update_invariant cfg0 false 2 60 ({} : SiloStatus)
    (fun h => absurd h (by decide))).2.2 s7w [] rfl (by decide) (by decide)

/-! ## Alert-engine helper lemmas -/

theorem lookup_alert_cons (k v : Nat) (rest : List (Nat × Nat)) (slave : Nat) :
    lookup_alert ((k, v) :: rest) slave =
      if k = slave then some v else lookup_alert rest slave := rfl

theorem set_alert_cons (k v : Nat) (rest : List (Nat × Nat)) (slave t : Nat) :
    set_alert ((k, v) :: rest) slave t =
      if k = slave then (slave, t) :: rest else (k, v) :: set_alert rest slave t := rfl

theorem del_alert_cons (k v : Nat) (rest : List (Nat × Nat)) (slave : Nat) :
    del_alert ((k, v) :: rest) slave =
      if k = slave then rest else (k, v) :: del_alert rest slave := rfl

theorem lookup_set_alert_ne (la : List (Nat × Nat)) (k t slave : Nat) (h : k ≠ slave) :
    lookup_alert (set_alert la k t) slave = lookup_alert la slave := by
  induction la with
  | nil =>
      unfold set_alert
      rw [lookup_alert_cons, if_neg h]

  | cons p rest ih =>
      obtain ⟨k', v'⟩ := p
      rw [set_alert_cons]
      by_cases hk : k' = k
      · rw [if_pos hk, lookup_alert_cons, lookup_alert_cons, if_neg h,
          if_neg (by rw [hk]; exact h)]
      · rw [if_neg hk, lookup_alert_cons, lookup_alert_cons]
        by_cases hs : k' = slave
        · rw [if_pos hs, if_pos hs]
        · rw [if_neg hs, if_neg hs, ih]

theorem lookup_del_alert_ne (la : List (Nat × Nat)) (k slave : Nat) (h : k ≠ slave) :
    lookup_alert (del_alert la k) slave = lookup_alert la slave := by
  induction la with
  | nil => rfl
  | cons p rest ih =>
      obtain ⟨k', v'⟩ := p
      rw [del_alert_cons]
      by_cases hk : k' = k
      · rw [if_pos hk, lookup_alert_cons, if_neg (by rw [hk]; exact h)]
      · rw [if_neg hk, lookup_alert_cons, lookup_alert_cons]
        by_cases hs : k' = slave
        · rw [if_pos hs, if_pos hs]
        · rw [if_neg hs, if_neg hs, ih]

theorem scan_step_other_key (threshold now : Nat) (acc : ScanAcc) (p : Nat × SiloStatus)
    (slave : Nat) (h : p.1 ≠ slave) :
    ((slave ∈ (scan_step threshold now acc p).st.currently_offline) ↔
      slave ∈ acc.st.currently_offline) ∧
    ((slave ∈ (scan_step threshold now acc p).newly_offline) ↔
      slave ∈ acc.newly_offline) ∧
    lookup_alert (scan_step threshold now acc p).st.last_alerts slave =
      lookup_alert acc.st.last_alerts slave := by
  have h' : ¬ slave = p.1 := fun hs => h hs.symm
  unfold scan_step
  split
  · refine ⟨?_, ?_, rfl⟩
    · simp [List.mem_append, h']
    · simp [List.mem_append, h']
  split
  · refine ⟨?_, Iff.rfl, ?_⟩
    · simp only [List.mem_filter]
      constructor
      · intro hm
        exact hm.1
      · intro hm
        exact ⟨hm, by simpa using h'⟩
    · exact lookup_del_alert_ne _ _ _ h
  · exact ⟨Iff.rfl, Iff.rfl, rfl⟩

theorem scan_fold_other_keys (threshold now : Nat) (slave : Nat)
    (l : List (Nat × SiloStatus)) :
    ∀ acc : ScanAcc, (∀ p ∈ l, p.1 ≠ slave) →
    ((slave ∈ (l.foldl (scan_step threshold now) acc).st.currently_offline ↔
        slave ∈ acc.st.currently_offline) ∧
     (slave ∈ (l.foldl (scan_step threshold now) acc).newly_offline ↔
        slave ∈ acc.newly_offline) ∧
     lookup_alert (l.foldl (scan_step threshold now) acc).st.last_alerts slave =
        lookup_alert acc.st.last_alerts slave) := by
  induction l with
  | nil => exact fun acc _ => ⟨Iff.rfl, Iff.rfl, rfl⟩
  | cons p rest ih =>
      intro acc h
      rw [List.foldl_cons]
      have h1 := scan_step_other_key threshold now acc p slave (h p (List.mem_cons_self p rest))
      have h2 := ih (scan_step threshold now acc p)
        (fun q hq => h q (List.mem_cons_of_mem p hq))
      exact ⟨h2.1.trans h1.1, h2.2.1.trans h1.2.1, h2.2.2.trans h1.2.2⟩

theorem scan_step_newly (threshold now : Nat) (acc : ScanAcc) (p : Nat × SiloStatus)
    (h1 : offline_too_long threshold now p.2 = true)
    (h2 : p.1 ∉ acc.st.currently_offline) :
    scan_step threshold now acc p =
      { acc with newly_offline := acc.newly_offline ++ [p.1],
                 st := { acc.st with
                          currently_offline := acc.st.currently_offline ++ [p.1] } } := by
  unfold scan_step
  rw [if_pos ⟨h1, h2⟩]

theorem send_offline_alert_other (cooldown now : Nat) (sendOk : Nat → Bool)
    (acc : List (Nat × Nat) × List Nat) (k slave : Nat) (h : k ≠ slave) :
    lookup_alert (send_offline_alert cooldown now sendOk acc k).1 slave =
      lookup_alert acc.1 slave ∧
    ((send_offline_alert cooldown now sendOk acc k).2 = acc.2 ∨
     (send_offline_alert cooldown now sendOk acc k).2 = acc.2 ++ [k]) := by
  cases hla : lookup_alert acc.1 k with
  | some t =>
      have hstep : send_offline_alert cooldown now sendOk acc k =
          (if now - t < cooldown then acc
           else if sendOk k then (set_alert acc.1 k now, acc.2 ++ [k]) else acc) := by
        unfold send_offline_alert
        rw [hla]
      rw [hstep]
      by_cases hc : now - t < cooldown
      · rw [if_pos hc]
        exact ⟨rfl, Or.inl rfl⟩
      · rw [if_neg hc]
        cases hs : sendOk k
        · rw [if_neg Bool.false_ne_true]
          exact ⟨rfl, Or.inl rfl⟩
        · rw [if_pos rfl]
          exact ⟨lookup_set_alert_ne _ _ _ _ h, Or.inr rfl⟩
  | none =>
      have hstep : send_offline_alert cooldown now sendOk acc k =
          (if sendOk k then (set_alert acc.1 k now, acc.2 ++ [k]) else acc) := by
        unfold send_offline_alert
        rw [hla]
      rw [hstep]
      cases hs : sendOk k
      · rw [if_neg Bool.false_ne_true]
        exact ⟨rfl, Or.inl rfl⟩
      · rw [if_pos rfl]
        exact ⟨lookup_set_alert_ne _ _ _ _ h, Or.inr rfl⟩

theorem send_offline_alert_cooldown (cooldown now : Nat) (sendOk : Nat → Bool)
    (acc : List (Nat × Nat) × List Nat) (slave t : Nat)
    (hla : lookup_alert acc.1 slave = some t) (hc : now - t < cooldown) :
    send_offline_alert cooldown now sendOk acc slave = acc := by
  have hstep : send_offline_alert cooldown now sendOk acc slave =
      (if now - t < cooldown then acc
       else if sendOk slave then (set_alert acc.1 slave now, acc.2 ++ [slave]) else acc) := by
    unfold send_offline_alert
    rw [hla]
  rw [hstep, if_pos hc]

theorem send_fold_suppressed (cooldown now : Nat) (sendOk : Nat → Bool) (slave t : Nat)
    (hc : now - t < cooldown) (ns : List Nat) :
    ∀ (la : List (Nat × Nat)) (msgs : List Nat),
      lookup_alert la slave = some t →
      (lookup_alert ((ns.foldl (send_offline_alert cooldown now sendOk) (la, msgs)).1) slave =
        some t ∧
       ((slave ∈ (ns.foldl (send_offline_alert cooldown now sendOk) (la, msgs)).2) ↔
        slave ∈ msgs)) := by
  induction ns with
  | nil => exact fun la msgs hla => ⟨hla, Iff.rfl⟩
  | cons k rest ih =>
      intro la msgs hla
      rw [List.foldl_cons]
      by_cases hk : k = slave
      · subst hk
        rw [send_offline_alert_cooldown cooldown now sendOk (la, msgs) k t hla hc]
        exact ih la msgs hla
      · obtain ⟨hl, hm⟩ := send_offline_alert_other cooldown now sendOk (la, msgs) k slave hk
        have heta : ((send_offline_alert cooldown now sendOk (la, msgs) k).1,
            (send_offline_alert cooldown now sendOk (la, msgs) k).2) =
            send_offline_alert cooldown now sendOk (la, msgs) k := rfl
        have hih := ih (send_offline_alert cooldown now sendOk (la, msgs) k).1
          (send_offline_alert cooldown now sendOk (la, msgs) k).2 (by rw [hl]; exact hla)
        rw [heta] at hih
        refine ⟨hih.1, hih.2.trans ?_⟩
        have hks : ¬ slave = k := fun hs => hk hs.symm
        rcases hm with he | he
        · rw [he]
        · rw [he, List.mem_append]
          simp [hks]

/-! ## Claim C1 — offline classification (timezone bug) -/

/-- A device record that is failing but whose last OK is recent. -/
def st1w : SiloStatus :=
  { value := some 7, percent := some 0, online := false, last_ok := some 0,
    last_error := some ("Errore Modbus"), error_count := 1, total_reads := 2 }

/-- Claim C1 (code bug, evaluated at the failing input): device 3 is not
online, not in `currently_offline`, and its `last_ok` is 30 s old with a 60 s
threshold — the claim (and the spec's scenario) say no OFFLINE alert is
emitted and the device is not added.  In the source the threshold comparison
raises `TypeError` (timezone-aware `current_time` minus the naive parsed
`last_ok`, src/telegram_alerts.py line 130) and the bare `except` classifies
the device offline-too-long, so the evaluation emits the OFFLINE message and
adds the device to `currently_offline` regardless of recency. -/
theorem C1_bug_alert_despite_recent_ok :
    st1w.online = false ∧ st1w.last_ok = some 0 ∧ 30 - 0 ≤ 60 ∧
    offline_too_long 60 30 st1w = true ∧
    3 ∈ (check_and_send_alerts 60 900 (fun _ => true) 30
      { last_alerts := [], currently_offline := [] }
      [(3, st1w)]).st.currently_offline ∧
    3 ∈ (check_and_send_alerts 60 900 (fun _ => true) 30
      { last_alerts := [], currently_offline := [] }
      [(3, st1w)]).offline_sent := by decide

/-! ## Claim C9 — cooldown suppresses the send but not the set update -/

/-- Claim C9: on a healthy-to-offline transition of a slave whose last alert
is within the cooldown window, the OFFLINE send is suppressed, yet the slave
is still added to `currently_offline` — the set update happens during the
scan, before and independently of the cooldown check.  With the faithful
classifier, `offline_too_long … = true` holds for every non-online device,
so the hypothesis covers exactly the transitions the program performs; the
cooldown subtraction itself is aware-minus-aware in the source (`last_alerts`
stores `current_time` objects) and raises nothing. -/
theorem C9_cooldown_set_membership
    (threshold cooldown now : Nat) (sendOk : Nat → Bool) (st0 : AlertState)
    (l1 l2 : List (Nat × SiloStatus)) (slave : Nat) (st : SiloStatus) (t : Nat)
    (hkeys : ∀ p ∈ l1 ++ l2, p.1 ≠ slave)
    (htoolong : offline_too_long threshold now st = true)
    (hwas : slave ∉ st0.currently_offline)
    (hla : lookup_alert st0.last_alerts slave = some t)
    (hcool : now - t < cooldown) :
    slave ∈ (check_and_send_alerts threshold cooldown sendOk now st0
      (l1 ++ (slave, st) :: l2)).st.currently_offline ∧
    slave ∉ (check_and_send_alerts threshold cooldown sendOk now st0
      (l1 ++ (slave, st) :: l2)).offline_sent := by
  have hkeys1 : ∀ p ∈ l1, p.1 ≠ slave := fun p hp => hkeys p (List.mem_append_left _ hp)
  have hkeys2 : ∀ p ∈ l2, p.1 ≠ slave := fun p hp => hkeys p (List.mem_append_right _ hp)
  have hA := scan_fold_other_keys threshold now slave l1
    { newly_offline := [], back_online := [], st := st0 } hkeys1
  have hco1 : slave ∉ (l1.foldl (scan_step threshold now)
      { newly_offline := [], back_online := [], st := st0 }).st.currently_offline :=
    fun hm => hwas (hA.1.mp hm)
  have hla1 : lookup_alert (l1.foldl (scan_step threshold now)
      { newly_offline := [], back_online := [], st := st0 }).st.last_alerts slave = some t :=
    hA.2.2.trans hla
  have hstep := scan_step_newly threshold now
    (l1.foldl (scan_step threshold now)
      { newly_offline := [], back_online := [], st := st0 }) (slave, st) htoolong hco1
  constructor
  · show slave ∈ (((l1 ++ (slave, st) :: l2).foldl (scan_step threshold now)
      { newly_offline := [], back_online := [], st := st0 }).st.currently_offline)
    rw [List.foldl_append, List.foldl_cons, hstep]
    refine (scan_fold_other_keys threshold now slave l2 _ hkeys2).1.mpr ?_
    simp
  · show slave ∉ ((((l1 ++ (slave, st) :: l2).foldl (scan_step threshold now)
        { newly_offline := [], back_online := [], st := st0 }).newly_offline).foldl
        (send_offline_alert cooldown now sendOk)
        (((l1 ++ (slave, st) :: l2).foldl (scan_step threshold now)
          { newly_offline := [], back_online := [], st := st0 }).st.last_alerts, [])).2
    rw [List.foldl_append, List.foldl_cons, hstep]
    intro hm
    have hlaf : lookup_alert (l2.foldl (scan_step threshold now)
        { newly_offline := (l1.foldl (scan_step threshold now)
            { newly_offline := [], back_online := [], st := st0 }).newly_offline ++ [slave],
          back_online := (l1.foldl (scan_step threshold now)
            { newly_offline := [], back_online := [], st := st0 }).back_online,
          st := { last_alerts := (l1.foldl (scan_step threshold now)
                    { newly_offline := [], back_online := [], st := st0 }).st.last_alerts,
                  currently_offline := (l1.foldl (scan_step threshold now)
                    { newly_offline := [], back_online := [], st := st0 }).st.currently_offline
                    ++ [slave] } }).st.last_alerts slave = some t :=
      (scan_fold_other_keys threshold now slave l2 _ hkeys2).2.2.trans hla1
    have hsupp := (send_fold_suppressed cooldown now sendOk slave t hcool _ _ [] hlaf).2.mp hm
    simp at hsupp

/-- A device record that has been failing with no OK ever recorded. -/
def st9w : SiloStatus :=
  { value := none, percent := none, online := false, last_ok := none,
    last_error := some ("Errore Modbus"), error_count := 5, total_reads := 5 }

/-- Claim C9 witness: device 3, offline too long and last alerted 50 s ago
with a 900 s cooldown: no OFFLINE message is sent, yet the device joins
`currently_offline`. -/
theorem C9_cooldown_set_membership_witness :
    3 ∈ (check_and_send_alerts 60 900 (fun _ => true) 100
      { last_alerts := [(3, 50)], currently_offline := [] }
      ([] ++ (3, st9w) :: [])).st.currently_offline ∧
    3 ∉ (check_and_send_alerts 60 900 (fun _ => true) 100
      { last_alerts := [(3, 50)], currently_offline := [] }
      ([] ++ (3, st9w) :: [])).offline_sent :=
  C9_cooldown_set_membership 60 900 100 (fun _ => true)
    { last_alerts := [(3, 50)], currently_offline := [] } [] [] 3 st9w 50
    (by simp) (by decide) (by decide) (by decide) (by decide)
